import Mathlib

/-
Verification of the rain-or-not weather application core.

The development shallowly embeds the TypeScript sources:
  * src/utils/location.ts        — geometry and the 15-minute rain prediction
  * src/services/weatherService.ts — station filter, 5-minute cache, wind
    vectors, and the staged acquisition pipeline
  * src/workers/distanceCalculator.ts and the threaded distance calculator —
    the parallel distance engine and its synchronous fallback

JavaScript numbers are modelled as real numbers; epoch-millisecond times as
naturals; JavaScript objects used as string-keyed records as association
lists; `null`/`undefined` as `Option`. JavaScript truncating `%`, `Math.round`
(half toward positive infinity) and negative-index array access are modelled
explicitly by `jsMod`, `jsRound` and `jsIndex`. `Array.prototype.sort` with a
numeric comparator (stable, ascending) is modelled by `List.insertionSort`
with the reflexive total preorder `comparator result ≤ 0`.
-/

noncomputable section

open scoped Classical

/-- Truncation toward zero, the rounding JavaScript's `%` operator uses. -/
def jsTrunc (x : ℝ) : ℤ :=
  if 0 ≤ x then ⌊x⌋ else ⌈x⌉

/-- JavaScript remainder `a % b`: truncated division remainder, sign of the dividend. -/
def jsMod (a b : ℝ) : ℝ :=
  a - b * (jsTrunc (a / b) : ℝ)

/-- JavaScript `Math.round`: round half toward positive infinity. -/
def jsRound (x : ℝ) : ℤ :=
  ⌊x + 1 / 2⌋

/-- JavaScript array access `l[i]`: `undefined` (here `none`) for a negative or
out-of-range index. -/
def jsIndex (l : List α) (i : ℤ) : Option α :=
  if 0 ≤ i then l.get? i.toNat else none

/-- JavaScript `m || d` on an optional string: the default replaces both
`null`/`undefined` and the falsy empty string. -/
def jsOrElse (m : Option String) (d : String) : String :=
  match m with
  | some s => if s = "" then d else s
  | none => d

/-- Record lookup for a JavaScript object built by key assignment (keys are
unique, so the first match is the binding). -/
def lookupRecord : List (String × α) → String → Option α
  | [], _ => none
  | p :: l, k => if p.1 = k then some p.2 else lookupRecord l k

/-- Record lookup with a default, modelling `m[k] ?? d`. -/
def lookupD (m : List (String × α)) (k : String) (d : α) : α :=
  (lookupRecord m k).getD d

/-- Key assignment `m[k] = v` on a JavaScript object: replaces in place when the
key exists, otherwise appends, preserving key insertion order. -/
def recordSet (m : List (String × α)) (k : String) (v : α) : List (String × α) :=
  if (m.map Prod.fst).contains k then
    m.map (fun p => if p.1 = k then (k, v) else p)
  else m ++ [(k, v)]

/-- Two-argument arctangent, the mathematical function behind `Math.atan2`. -/
def atan2 (y x : ℝ) : ℝ :=
  if 0 < x then Real.arctan (y / x)
  else if x < 0 then
    (if 0 ≤ y then Real.arctan (y / x) + Real.pi else Real.arctan (y / x) - Real.pi)
  else
    (if 0 < y then Real.pi / 2 else if y < 0 then -(Real.pi / 2) else 0)

/-- A geographic point in decimal degrees (the `UserLocation` type). -/
structure UserLocation where
  latitude : ℝ
  longitude : ℝ

/-- A weather station as normalized by the service (the `Station` type). -/
structure Station where
  id : String
  deviceId : String
  name : String
  labelLocation : Option UserLocation

/-- A normalized wind velocity vector (the `WindVector` type). -/
structure WindVector where
  velocityX : ℝ
  velocityY : ℝ
  magnitude : ℝ
  directionDeg : ℝ

/-- The aggregated snapshot produced by one acquisition cycle (the
`WeatherData` type, fields as assembled in `fetchWeatherData`). -/
structure WeatherData where
  stations : List Station
  rainfallMap : List (String × ℝ)
  windSpeedMap : List (String × ℝ)
  windDirectionMap : List (String × ℝ)
  windVectors : List (String × WindVector)
  significantRainDetected : Bool
  timestamp : String
  rainfallUnit : String
  windSpeedUnit : String
  windDirectionUnit : String

/-- A cached snapshot with its absolute expiry in epoch milliseconds (the
`CachedData` type). -/
structure CachedData where
  expiry : ℕ
  data : WeatherData

/-- One `(stationId, value)` pair of a reading batch. -/
structure ReadingItem where
  stationId : String
  value : ℝ

/-- One timestamped reading batch. -/
structure Reading where
  timestamp : String
  data : List ReadingItem

/-- A station record as delivered by an upstream feed; `labelLocation` or
`location` may carry the coordinates. -/
structure RawStation where
  id : String
  deviceId : String
  name : String
  labelLocation : Option UserLocation
  location : Option UserLocation

/-- The payload of an upstream feed response. -/
structure ApiData where
  stations : List RawStation
  readings : List Reading
  readingUnit : String

/-- The uniform envelope of the three upstream feeds. -/
structure GenericApiResponse where
  code : ℤ
  errorMsg : Option String
  data : Option ApiData

/-- Geographic filtering configuration (the `WeatherConfig` interface). -/
structure WeatherConfig where
  radiusKm : ℝ
  maxStations : ℕ
  minStations : ℕ

namespace Loc

/-- Degrees to radians, from src/utils/location.ts. -/
def deg2rad (deg : ℝ) : ℝ :=
  deg * (Real.pi / 180)

/-- The sixteen compass labels of `convertDegreesToCardinal`. -/
def directions : List String :=
  ["N", "NNE", "NE", "ENE", "E", "ESE", "SE", "SSE",
   "S", "SSW", "SW", "WSW", "W", "WNW", "NW", "NNW"]

/-- The `convertDegreesToCardinal` function of src/utils/location.ts:
`directions[Math.round(((deg % 360) / 22.5)) % 16]`, where an out-of-range
index yields `undefined` (`none`). -/
def convertDegreesToCardinal (deg : ℝ) : Option String :=
  jsIndex directions (Int.tmod (jsRound (jsMod deg 360 / 22.5)) 16)

/-- The cardinal mapping as the specification words it: nearest-of-16
rounding, `round(deg/22.5) mod 16` (mathematical modulus). Stated for
comparison with `convertDegreesToCardinal`. -/
def cardinalSpec (deg : ℝ) : Option String :=
  jsIndex directions ((jsRound (deg / 22.5)).emod 16)

/-- The `toCartesian` helper of src/utils/location.ts: local planar
approximation `x = R·Δλ·cos(φ_ref)`, `y = R·Δφ` with `R = 6371`. -/
def toCartesian (location reference : UserLocation) : ℝ × ℝ :=
  (6371 * deg2rad (location.longitude - reference.longitude) *
      Real.cos (deg2rad reference.latitude),
   6371 * deg2rad (location.latitude - reference.latitude))

/-- A qualifying rain threat as pushed by `calculateRainPrediction`:
`timeToReach` is stored already rounded by `Math.round`. -/
structure Threat where
  stationName : String
  timeToReach : ℤ
  distance : ℝ

/-- The order realized by `threats.sort((a, b) => a.timeToReach - b.timeToReach
|| a.distance - b.distance)`: comparator at most zero. -/
def threatLe (a b : Threat) : Prop :=
  a.timeToReach < b.timeToReach ∨
    (a.timeToReach = b.timeToReach ∧ a.distance ≤ b.distance)

/-- The vector from a station to the user (the user sits at the Cartesian
origin). -/
def stationToUserVec (u loc : UserLocation) : ℝ × ℝ :=
  (0 - (toCartesian loc u).1, 0 - (toCartesian loc u).2)

/-- The station-to-user distance computed inside the prediction loop. -/
def distanceToUser (u loc : UserLocation) : ℝ :=
  Real.sqrt ((stationToUserVec u loc).1 * (stationToUserVec u loc).1 +
    (stationToUserVec u loc).2 * (stationToUserVec u loc).2)

/-- The dot product of the wind vector with the station-to-user vector. -/
def dotProduct (u loc : UserLocation) (wv : WindVector) : ℝ :=
  wv.velocityX * (stationToUserVec u loc).1 + wv.velocityY * (stationToUserVec u loc).2

/-- The effective closing speed `dotProduct / distanceToUser` (km/h). -/
def effectiveVelocity (u loc : UserLocation) (wv : WindVector) : ℝ :=
  dotProduct u loc wv / distanceToUser u loc

/-- The time to reach the user, `(distance / effectiveVelocity) * 60` minutes. -/
def timeToReach (u loc : UserLocation) (wv : WindVector) : ℝ :=
  distanceToUser u loc / effectiveVelocity u loc wv * 60

/-- The per-station body of the prediction loop: a threat is pushed when the
dot product is positive, the effective velocity is positive, and the
unrounded time to reach is at most 15 minutes. -/
def threatOf (u : UserLocation) (w : WeatherData) (s : Station) : Option Threat :=
  match s.labelLocation, lookupRecord w.windVectors s.id with
  | some loc, some wv =>
    if 0 < dotProduct u loc wv then
      if 0 < effectiveVelocity u loc wv then
        if timeToReach u loc wv ≤ 15 then
          some ⟨s.name, jsRound (timeToReach u loc wv), distanceToUser u loc⟩
        else none
      else none
    else none
  | _, _ => none

/-- The rainy-station candidate filter of `calculateRainPrediction`: a located
station with at least 3 mm rainfall and a wind vector of positive magnitude. -/
def rainyStations (w : WeatherData) : List Station :=
  w.stations.filter fun s =>
    decide (s.labelLocation ≠ none ∧ 3 ≤ lookupD w.rainfallMap s.id 0 ∧
      (match lookupRecord w.windVectors s.id with
       | some wv => 0 < wv.magnitude
       | none => False))

/-- The threats accumulated by the prediction loop over the rainy stations. -/
def computeThreats (u : UserLocation) (w : WeatherData) : List Threat :=
  (rainyStations w).filterMap (threatOf u w)

/-- The message for a threat at most 5 minutes away. -/
def closeMessage (c : Threat) : String :=
  "Rain from " ++ c.stationName ++ " is very close and could arrive within " ++
    toString c.timeToReach ++ " minutes. Take cover soon!"

/-- The message for a threat 6 to 15 minutes away. -/
def approachMessage (c : Threat) : String :=
  "Rain from " ++ c.stationName ++ " is moving your way and could arrive in about " ++
    toString c.timeToReach ++ " minutes."

/-- The `calculateRainPrediction` function of src/utils/location.ts. The
source sorts the threat array in place and reads index 0; here the sorted
list is matched, its head being that index. -/
def calculateRainPrediction (u : UserLocation) (w : WeatherData) : String :=
  if w.significantRainDetected = false then
    "No significant rainfall (>=3mm) detected at any weather station. You should stay dry."
  else if (rainyStations w).length = 0 then
    "Significant rain detected elsewhere."
  else
    match List.insertionSort threatLe (computeThreats u w) with
    | c :: _ => if c.timeToReach ≤ 5 then closeMessage c else approachMessage c
    | [] =>
      "Significant rain is detected, but current wind patterns suggest it is not heading towards your location within the next 15 minutes."

end Loc

namespace WS

/-- The haversine `calculateDistance` of src/services/weatherService.ts. -/
def calculateDistance (lat1 lon1 lat2 lon2 : ℝ) : ℝ :=
  let dLat := (lat2 - lat1) * Real.pi / 180
  let dLon := (lon2 - lon1) * Real.pi / 180
  let a := Real.sin (dLat / 2) * Real.sin (dLat / 2) +
    Real.cos (lat1 * Real.pi / 180) * Real.cos (lat2 * Real.pi / 180) *
      (Real.sin (dLon / 2) * Real.sin (dLon / 2))
  6371 * (2 * atan2 (Real.sqrt a) (Real.sqrt (1 - a)))

/-- The order realized by `.sort((a, b) => a.distance - b.distance)` on
station-distance pairs. -/
def distPairLe (a b : Station × ℝ) : Prop :=
  a.2 ≤ b.2

/-- The `filterNearbyStations` function. A JavaScript falsy check guards the
coordinates, so `undefined` and `0` alike bypass the filter. -/
def filterNearbyStations (stations : List Station) (userLat userLon : Option ℝ)
    (config : WeatherConfig) : List Station :=
  match userLat, userLon with
  | some la, some lo =>
    if la = 0 ∨ lo = 0 then stations
    else
      let withDistance := stations.filterMap fun s =>
        s.labelLocation.map fun l => (s, calculateDistance la lo l.latitude l.longitude)
      let nearbyStations :=
        ((List.insertionSort distPairLe
            (withDistance.filter fun p => decide (p.2 ≤ config.radiusKm))).take
          config.maxStations).map Prod.fst
      if nearbyStations.length < config.minStations ∧ config.minStations ≤ stations.length then
        ((List.insertionSort distPairLe withDistance).take config.minStations).map Prod.fst
      else nearbyStations
  | _, _ => stations

/-- The `getNext5MinMark` function: add `5 − (minute mod 5)` minutes to now,
then zero the seconds and milliseconds. Times are epoch milliseconds. -/
def getNext5MinMark (now : ℕ) : ℕ :=
  let minutes := now / 60000 % 60
  let minutesToAdd := 5 - minutes % 5
  (now + minutesToAdd * 60000) / 60000 * 60000

/-- The `getCachedData` function on the single cache slot: returns the
snapshot while now is at most the expiry and evicts (second component is the
slot afterwards) once now is strictly past it. -/
def getCachedData (cache : Option CachedData) (now : ℕ) :
    Option WeatherData × Option CachedData :=
  match cache with
  | none => (none, none)
  | some c => if c.expiry < now then (none, none) else (some c.data, some c)

/-- The `setCachedData` function: the stored entry pairs the snapshot with the
expiry computed by `getNext5MinMark` at write time. -/
def setCachedData (now : ℕ) (d : WeatherData) : CachedData :=
  ⟨getNext5MinMark now, d⟩

/-- The `convertToWindVector` function: knots to km/h, direction-from plus 180
degrees to direction-to, then trigonometric decomposition. -/
def convertToWindVector (speedKnots directionDeg : ℝ) : WindVector :=
  let speedKmh := speedKnots * 1.852
  let travelDirectionRad := jsMod (directionDeg + 180) 360 * (Real.pi / 180)
  { velocityX := speedKmh * Real.cos travelDirectionRad
    velocityY := speedKmh * Real.sin travelDirectionRad
    magnitude := speedKmh
    directionDeg := jsMod (directionDeg + 180) 360 }

/-- A reading batch turned into a `(stationId, value)` record by repeated key
assignment. -/
def buildRecord (items : List ReadingItem) : List (String × ℝ) :=
  items.foldl (fun acc it => recordSet acc it.stationId it.value) []

/-- The record extracted from a feed payload: only the first (latest) batch of
`readings` is consulted. -/
def extractRecord (dta : ApiData) : List (String × ℝ) :=
  match dta.readings.head? with
  | some r => buildRecord r.data
  | none => []

/-- The acquisition gate: some station of the latest rainfall batch reports at
least 1 mm (`Object.values(rainfallMap).some(value => value >= 1)`). -/
def significantRain (rdata : ApiData) : Bool :=
  decide (∃ p ∈ extractRecord rdata, (1 : ℝ) ≤ p.2)

/-- One step of the station-metadata merge: an existing station keeps its
identity and gains a location only when it had none; an unseen id is appended,
its location taken from `labelLocation` or else `location`. -/
def upsertStation (acc : List Station) (raw : RawStation) : List Station :=
  let locationData := match raw.labelLocation with
    | some l => some l
    | none => raw.location
  if (acc.map Station.id).contains raw.id then
    acc.map fun st =>
      if st.id = raw.id then
        (match st.labelLocation with
         | some _ => st
         | none => { st with labelLocation := locationData })
      else st
  else
    acc ++ [{ id := raw.id, deviceId := raw.deviceId, name := raw.name,
              labelLocation := locationData }]

/-- The station map union over every feed that returned data, in feed order. -/
def mergeStations (datas : List ApiData) : List Station :=
  datas.foldl (fun acc d => d.stations.foldl upsertStation acc) []

/-- Restriction of a record to the nearby station ids (the map re-keying done
when a user location is given). -/
def filterRecord (m : List (String × α)) (ids : List String) : List (String × α) :=
  m.filter fun p => ids.contains p.1

/-- The wind-vector map: one vector per station with both a wind speed and a
wind direction, only when the speed is positive. -/
def buildWindVectors (windSpeedMap windDirectionMap : List (String × ℝ)) :
    List (String × WindVector) :=
  windSpeedMap.foldl
    (fun (acc : List (String × WindVector)) (p : String × ℝ) =>
      match lookupRecord windDirectionMap p.1 with
      | some dir => if 0 < p.2 then recordSet acc p.1 (convertToWindVector p.2 dir) else acc
      | none => acc)
    []

/-- Assembly of the combined snapshot: merge station metadata over the feeds
that answered, proximity-filter when a user location is given, and in that
case re-key every per-station map to the filtered ids. -/
def assembleSnapshot (rdata : ApiData) (wsData wdData : Option ApiData)
    (rainfallMap windSpeedMap windDirectionMap : List (String × ℝ))
    (windVectors : List (String × WindVector)) (significant : Bool)
    (userLocation : Option UserLocation) (config : WeatherConfig) (nowIso : String) :
    WeatherData :=
  let allStations := mergeStations ([some rdata, wsData, wdData].reduceOption)
  let nearbyStations := match userLocation with
    | some ul => filterNearbyStations allStations (some ul.latitude) (some ul.longitude) config
    | none => allStations
  let nearbyIds := nearbyStations.map Station.id
  { stations := nearbyStations
    rainfallMap := if userLocation.isSome then filterRecord rainfallMap nearbyIds else rainfallMap
    windSpeedMap :=
      if userLocation.isSome then filterRecord windSpeedMap nearbyIds else windSpeedMap
    windDirectionMap :=
      if userLocation.isSome then filterRecord windDirectionMap nearbyIds else windDirectionMap
    windVectors := if userLocation.isSome then filterRecord windVectors nearbyIds else windVectors
    significantRainDetected := significant
    timestamp := jsOrElse ((rdata.readings.head?).map Reading.timestamp) nowIso
    rainfallUnit := rdata.readingUnit
    windSpeedUnit := jsOrElse (wsData.map ApiData.readingUnit) ("knots")
    windDirectionUnit := jsOrElse (wdData.map ApiData.readingUnit) ("degrees") }

/-- The fresh-acquisition pipeline of `fetchWeatherData` after a cache miss:
rainfall first; wind speed and wind direction only when the rainfall gate
fires; the first component records whether the wind endpoints were called. -/
def acquireFresh (rain ws wd : GenericApiResponse) (userLocation : Option UserLocation)
    (config : WeatherConfig) (nowIso : String) : Bool × Except String WeatherData :=
  match rain.data with
  | none =>
    (false, .error (jsOrElse rain.errorMsg ("Rainfall API returned an error without a message.")))
  | some rdata =>
    if rain.code ≠ 0 then
      (false, .error (jsOrElse rain.errorMsg ("Rainfall API returned an error without a message.")))
    else
      let rainfallMap := extractRecord rdata
      if significantRain rdata then
        match ws.data with
        | none =>
          (true, .error (jsOrElse ws.errorMsg ("Wind speed API returned an error without a message.")))
        | some wsdata =>
          if ws.code ≠ 0 then
            (true, .error (jsOrElse ws.errorMsg ("Wind speed API returned an error without a message.")))
          else
            match wd.data with
            | none =>
              (true, .error (jsOrElse wd.errorMsg ("Wind direction API returned an error without a message.")))
            | some wddata =>
              if wd.code ≠ 0 then
                (true, .error (jsOrElse wd.errorMsg ("Wind direction API returned an error without a message.")))
              else
                let windSpeedMap := extractRecord wsdata
                let windDirectionMap := extractRecord wddata
                let windVectors := buildWindVectors windSpeedMap windDirectionMap
                (true, .ok (assembleSnapshot rdata (some wsdata) (some wddata) rainfallMap
                  windSpeedMap windDirectionMap windVectors (significantRain rdata)
                  userLocation config nowIso))
      else
        (false, .ok (assembleSnapshot rdata none none rainfallMap [] [] []
          (significantRain rdata) userLocation config nowIso))

/-- The observable outcome of one `fetchWeatherData` call: whether the cache
answered, whether the wind endpoints were called, the returned snapshot or
error, and the weather cache slot afterwards. -/
structure FetchOutcome where
  usedCache : Bool
  windFetched : Bool
  result : Except String WeatherData
  cacheAfter : Option CachedData

/-- The `fetchWeatherData` entry point: consult the cache unless refresh is
forced, otherwise run the staged acquisition; a successful cycle overwrites
the cache slot, a failed one wraps the originating message and leaves the
slot as the entry check left it. -/
def fetchWeatherData (forceRefresh : Bool) (cache : Option CachedData) (now : ℕ)
    (nowIso : String) (rain ws wd : GenericApiResponse)
    (userLocation : Option UserLocation) (config : WeatherConfig) : FetchOutcome :=
  let afterRead := if forceRefresh then ((none : Option WeatherData), cache)
    else getCachedData cache now
  match afterRead.1 with
  | some d => ⟨true, false, .ok d, afterRead.2⟩
  | none =>
    match (acquireFresh rain ws wd userLocation config nowIso).2 with
    | .ok snap =>
      ⟨false, (acquireFresh rain ws wd userLocation config nowIso).1, .ok snap,
        some (setCachedData now snap)⟩
    | .error e =>
      ⟨false, (acquireFresh rain ws wd userLocation config nowIso).1,
        .error ("Could not retrieve weather data: " ++ e), afterRead.2⟩

end WS

/-- The `(id, lat, lon)` triple sent to a distance worker. -/
structure SlimStation where
  id : String
  lat : ℝ
  lon : ℝ

namespace DistanceWorker

/-- The haversine `calculateDistance` of src/workers/distanceCalculator.ts. -/
def calculateDistance (lat1 lon1 lat2 lon2 : ℝ) : ℝ :=
  let dLat := (lat2 - lat1) * Real.pi / 180
  let dLon := (lon2 - lon1) * Real.pi / 180
  let a := Real.sin (dLat / 2) * Real.sin (dLat / 2) +
    Real.cos (lat1 * Real.pi / 180) * Real.cos (lat2 * Real.pi / 180) *
      (Real.sin (dLon / 2) * Real.sin (dLon / 2))
  6371 * (2 * atan2 (Real.sqrt a) (Real.sqrt (1 - a)))

/-- The worker's `calculateDistancesForStations`: one `(id, distance)` pair per
shard entry. -/
def calculateDistancesForStations (userLat userLon : ℝ) (stations : List SlimStation) :
    List (String × ℝ) :=
  stations.map fun s => (s.id, calculateDistance userLat userLon s.lat s.lon)

end DistanceWorker

namespace ThreadedCalc

/-- The `calculateDistanceSync` haversine of the threaded distance
calculator's synchronous fallback. -/
def calculateDistanceSync (lat1 lon1 lat2 lon2 : ℝ) : ℝ :=
  let dLat := (lat2 - lat1) * Real.pi / 180
  let dLon := (lon2 - lon1) * Real.pi / 180
  let a := Real.sin (dLat / 2) * Real.sin (dLat / 2) +
    Real.cos (lat1 * Real.pi / 180) * Real.cos (lat2 * Real.pi / 180) *
      (Real.sin (dLon / 2) * Real.sin (dLon / 2))
  6371 * (2 * atan2 (Real.sqrt a) (Real.sqrt (1 - a)))

/-- The `calculateDistancesSync` fallback path: distance per located station. -/
def calculateDistancesSync (stations : List Station) (userLat userLon : ℝ) :
    List (Station × ℝ) :=
  stations.filterMap fun s =>
    s.labelLocation.map fun loc =>
      (s, calculateDistanceSync userLat userLon loc.latitude loc.longitude)

/-- Lookup in a JavaScript `Map` built from a pair list: a later binding of
the same key overwrites an earlier one. -/
def lastLookup (k : String) : List (String × ℝ) → Option ℝ
  | [] => none
  | p :: l =>
    match lastLookup k l with
    | some v => some v
    | none => if p.1 = k then some p.2 else none

/-- The `mapResultsToStations` merge: keep the stations whose id has a result
and pair each with its keyed distance. -/
def mapResultsToStations (results : List (String × ℝ)) (stations : List Station) :
    List (Station × ℝ) :=
  stations.filterMap fun s => (lastLookup s.id results).map fun d => (s, d)

/-- The contiguous sharding loop `for (i = 0; i < n; i += chunkSize)`. -/
def chunkList (k : ℕ) (l : List SlimStation) : List (List SlimStation) :=
  if h : k = 0 ∨ l = [] then []
  else l.take k :: chunkList k (l.drop k)
termination_by l.length
decreasing_by
  push_neg at h
  cases l with
  | nil => exact absurd rfl h.2
  | cons a t =>
    simp only [List.length_drop, List.length_cons]
    omega

/-- The `calculateDistancesParallel` path, deterministically modelled: small
inputs go to a single worker; larger ones are sharded over the pool, the
shard results flattened and merged by station id. -/
def calculateDistancesParallel (poolSize : ℕ) (stations : List Station)
    (userLat userLon : ℝ) : List (Station × ℝ) :=
  let stationData := stations.filterMap fun s =>
    s.labelLocation.map fun loc => SlimStation.mk s.id loc.latitude loc.longitude
  if stationData.length = 0 then []
  else if stationData.length ≤ 20 then
    mapResultsToStations
      (DistanceWorker.calculateDistancesForStations userLat userLon stationData) stations
  else
    let m := min poolSize stationData.length
    let chunkSize := (stationData.length + m - 1) / m
    mapResultsToStations
      ((chunkList chunkSize stationData).map
        (DistanceWorker.calculateDistancesForStations userLat userLon)).flatten
      stations

end ThreadedCalc

/-- A reference location on the equator at longitude zero; its local Cartesian
frame makes offsets exact. -/
def uZero : UserLocation := ⟨0, 0⟩

/-- The latitude in degrees whose local Cartesian northward offset from
`uZero` is exactly `y` kilometres. -/
def latNorth (y : ℝ) : ℝ := y * 180 / (6371 * Real.pi)

/-- A point `y` kilometres due north of `uZero`. -/
def northLoc (y : ℝ) : UserLocation := ⟨latNorth y, 0⟩

/-- A wind vector blowing due south at `v` km/h in the prediction's
coordinate convention (second component is the northward axis). -/
def southWind (v : ℝ) : WindVector := ⟨0, -v, v, 180⟩

/-- A station 10 km due north of `uZero`. -/
def stNorth : Station := ⟨"N1", "dev", "North", some (northLoc 10)⟩

/-- A snapshot with one rainy station 10 km north and wind blowing due south
at 40 km/h: the 15-minute boundary scenario. -/
def wOne : WeatherData :=
  ⟨[stNorth], [("N1", 5)], [], [], [("N1", southWind 40)], true, "t", "mm", "knots", "degrees"⟩

/-- A rainy station 10 km north of `uZero` with wind carrying its rain to the
user in 9.6 minutes. -/
def stAlpha : Station := ⟨"A1", "dev", "Alpha", some (northLoc 10)⟩

/-- A rainy station 5 km north of `uZero` with wind carrying its rain to the
user in 10.2 minutes. -/
def stBeta : Station := ⟨"B1", "dev", "Beta", some (northLoc 5)⟩

/-- A snapshot with two qualifying threats whose unrounded arrival times 9.6
and 10.2 minutes both round to 10 minutes. -/
def wTwo : WeatherData :=
  ⟨[stAlpha, stBeta], [("A1", 5), ("B1", 5)], [], [],
   [("A1", southWind (125 / 2)), ("B1", southWind (500 / 17))],
   true, "t", "mm", "knots", "degrees"⟩

/-- A demo station colocated with the demo reference point. -/
def demoStation (i : String) : Station := ⟨i, "dev", i, some ⟨1, 1⟩⟩

/-- Four demo stations at the demo reference point. -/
def demoStations : List Station :=
  [demoStation ("P1"), demoStation ("P2"), demoStation ("P3"), demoStation ("P4")]

/-- A configuration with a negative radius and `minStations` greater than
`maxStations`. -/
def cfgDemo : WeatherConfig := ⟨-1, 3, 4⟩

/-- An empty snapshot, used as cached payload in cache demonstrations. -/
def emptySnapshot : WeatherData :=
  ⟨[], [], [], [], [], false, "t", "mm", "knots", "degrees"⟩

/-- A failing rainfall response carrying an upstream message. -/
def rainFail : GenericApiResponse := ⟨1, some ("boom"), none⟩

/-- A raw station record for the acquisition demonstrations. -/
def rawNorth : RawStation := ⟨"N1", "dev", "North", some (northLoc 10), none⟩

/-- A rainfall payload whose only reading is below the 1 mm gate. -/
def rdataLow : ApiData := ⟨[rawNorth], [⟨"ts", [⟨"N1", 1 / 2⟩]⟩], "mm"⟩

/-- A successful rainfall response with no significant rain. -/
def rainLow : GenericApiResponse := ⟨0, none, some rdataLow⟩

/-- A placeholder wind response (never consulted in the demonstrated runs). -/
def respDummy : GenericApiResponse := ⟨0, none, none⟩

/-- A station for the parallel-distance demonstration. -/
def stWest : Station := ⟨"W1", "dev", "West", some ⟨1, 2⟩⟩

/-! ### Theorems -/

/-- C5: every put stores an expiry equal to the next 5-minute wall-clock
boundary strictly after the put time with seconds and sub-seconds zero (a put
at 10:02:30, epoch 36150000 ms, yields exactly 10:05:00, epoch 36300000 ms; a
put on a boundary advances a full 5 minutes, which the closed form
`(now / 300000 + 1) * 300000` exhibits), and a get returns the snapshot while
now is at most the expiry and evicts, returning absent, once now is strictly
past it. -/
theorem C5_time_aligned_cache :
    (∀ (now : ℕ) (d : WeatherData),
        (WS.setCachedData now d).expiry = (now / 300000 + 1) * 300000 ∧
        (WS.setCachedData now d).expiry % 300000 = 0 ∧
        now < (WS.setCachedData now d).expiry ∧
        (WS.setCachedData now d).expiry ≤ now + 300000) ∧
    (∀ (e : ℕ) (d : WeatherData) (now : ℕ),
        (now ≤ e → WS.getCachedData (some ⟨e, d⟩) now = (some d, some ⟨e, d⟩)) ∧
        (e < now → WS.getCachedData (some ⟨e, d⟩) now = (none, none))) ∧
    (WS.setCachedData 36150000 emptySnapshot).expiry = 36300000 ∧
    WS.getCachedData (some ⟨36300000, emptySnapshot⟩) 36299000 =
      (some emptySnapshot, some ⟨36300000, emptySnapshot⟩) ∧
    WS.getCachedData (some ⟨36300000, emptySnapshot⟩) 36301000 = (none, none) := by
  refine ⟨fun now d => ?_, fun e d now => ⟨fun h => ?_, fun h => ?_⟩, ?_, ?_, ?_⟩
  · simp only [WS.setCachedData, WS.getNext5MinMark]
    omega
  · simp only [WS.getCachedData, if_neg (Nat.not_lt.mpr h)]
  · simp only [WS.getCachedData, if_pos h]
  · simp only [WS.setCachedData, WS.getNext5MinMark]
  · simp only [WS.getCachedData]
    norm_num
  · simp only [WS.getCachedData]
    norm_num

/-- C10: a supplied reference location with latitude 0 or longitude 0 is
falsy under the JavaScript guard of `filterNearbyStations`, so the filter
treats the location as absent and returns the input station list unchanged. -/
theorem C10_zero_coordinate_bypass (stations : List Station) (userLat userLon : Option ℝ)
    (config : WeatherConfig) (h : userLat = some 0 ∨ userLon = some 0) :
    WS.filterNearbyStations stations userLat userLon config = stations := by
  rcases h with h | h
  · subst h
    cases userLon with
    | none => rfl
    | some lo => simp [WS.filterNearbyStations]
  · subst h
    cases userLat with
    | none => rfl
    | some la => simp [WS.filterNearbyStations]

/-- C10 witness: a location with latitude exactly 0 and a nonzero longitude
bypasses the filter on the four demo stations. -/
theorem C10_zero_coordinate_bypass_witness :
    WS.filterNearbyStations demoStations (some 0) (some 5) cfgDemo = demoStations :=
  C10_zero_coordinate_bypass demoStations (some 0) (some 5) cfgDemo (Or.inl rfl)

/-- C6: `convertToWindVector 10 90` (10 knots from due east) produces
magnitude exactly 18.52 km/h, travel direction 270 degrees, velocityX exactly
0 and velocityY exactly -18.52. -/
theorem C6_wind_vector_conversion :
    (WS.convertToWindVector 10 90).magnitude = 18.52 ∧
    (WS.convertToWindVector 10 90).directionDeg = 270 ∧
    (WS.convertToWindVector 10 90).velocityX = 0 ∧
    (WS.convertToWindVector 10 90).velocityY = -18.52 := by
  have hmod : jsMod ((90 : ℝ) + 180) 360 = 270 := by
    have ht : jsTrunc (((90 : ℝ) + 180) / 360) = 0 := by
      rw [jsTrunc, if_pos (by norm_num)]
      rw [Int.floor_eq_iff] <;> norm_num
    rw [jsMod, ht]
    norm_num
  have hrad : (270 : ℝ) * (Real.pi / 180) = Real.pi + Real.pi / 2 := by ring
  refine ⟨by simp only [WS.convertToWindVector]; norm_num, ?_, ?_, ?_⟩
  · simp only [WS.convertToWindVector, hmod]
  · simp only [WS.convertToWindVector, hmod, hrad, Real.cos_add]
    norm_num
  · simp only [WS.convertToWindVector, hmod, hrad, Real.sin_add]
    norm_num

/-- C8 counterexample: at -100 degrees the computed array index is
`Math.round((-100 % 360) / 22.5) % 16 = (-4) % 16 = -4` under JavaScript's
truncating remainder, so `directions[-4]` is `undefined` and no compass label
is returned, refuting totality over negative finite input. -/
theorem C8_cardinal_counterexample :
    Loc.convertDegreesToCardinal (-100) = none := by
  have ht : jsTrunc ((-100 : ℝ) / 360) = 0 := by
    rw [jsTrunc, if_neg (by norm_num)]
    rw [Int.ceil_eq_iff] <;> norm_num
  have hmod : jsMod (-100 : ℝ) 360 = -100 := by
    rw [jsMod, ht]
    norm_num
  have hround : jsRound ((-100 : ℝ) / 22.5) = -4 := by
    rw [jsRound]
    rw [Int.floor_eq_iff] <;> norm_num
  rw [Loc.convertDegreesToCardinal, hmod, hround]
  rw [show Int.tmod (-4) 16 = -4 by decide]
  rw [jsIndex, if_neg (by decide)]

/-- C8 amended: totality holds on the nonnegative finite inputs. For every
`deg ≥ 0` the function returns one of the sixteen compass labels and agrees
with the specification's formula `round(deg / 22.5) mod 16` (mathematical
modulus), and `cardinal 0 = cardinal 360`; for negative inputs the computed
index can be negative and no label is returned. -/
theorem C8_cardinal_amended :
    (∀ deg : ℝ, 0 ≤ deg →
        (Loc.convertDegreesToCardinal deg).isSome = true ∧
        Loc.convertDegreesToCardinal deg = Loc.cardinalSpec deg) ∧
    Loc.convertDegreesToCardinal 0 = Loc.convertDegreesToCardinal 360 := by
  constructor
  · intro deg hdeg
    set k : ℤ := ⌊deg / 360⌋ with hk
    have h360 : (0 : ℝ) < 360 := by norm_num
    have hkr : (k : ℝ) ≤ deg / 360 := Int.floor_le _
    have hkr2 : deg / 360 < k + 1 := Int.lt_floor_add_one _
    set r : ℝ := deg - 360 * k with hr
    have hr0 : 0 ≤ r := by
      have := mul_le_mul_of_nonneg_left hkr (le_of_lt h360)
      rw [mul_div_cancel₀ _ (ne_of_gt h360)] at this
      simpa [hr] using this
    have hr360 : r < 360 := by
      have := mul_lt_mul_of_pos_left hkr2 h360
      rw [mul_div_cancel₀ _ (ne_of_gt h360)] at this
      have h2 : deg < 360 * k + 360 := by linarith [this]
      simpa [hr] using by linarith [h2]
    have hdg : deg = 360 * k + r := by rw [hr]; ring
    have ht : jsTrunc (deg / 360) = k := by
      rw [jsTrunc, if_pos (div_nonneg hdeg (le_of_lt h360))]
    have hmod : jsMod deg 360 = r := by
      rw [jsMod, ht, hr]
    set j : ℤ := jsRound (r / 22.5) with hj
    have hj0 : 0 ≤ j := by
      rw [hj, jsRound]
      have : (0 : ℝ) ≤ r / 22.5 + 1 / 2 := by positivity
      exact Int.floor_nonneg.mpr this
    have hcode : Loc.convertDegreesToCardinal deg = jsIndex Loc.directions (j.emod 16) := by
      rw [Loc.convertDegreesToCardinal, hmod, ← hj,
        Int.tmod_eq_emod hj0 (by norm_num)]
      rfl
    have hspecround : jsRound (deg / 22.5) = 16 * k + j := by
      rw [jsRound, hj, jsRound]
      have hsplit : deg / 22.5 + 1 / 2 = ((16 * k : ℤ) : ℝ) + (r / 22.5 + 1 / 2) := by
        rw [hdg]
        push_cast
        ring
      rw [hsplit, add_comm ((16 * k : ℤ) : ℝ), Int.floor_add_int, add_comm]
    have hspec : Loc.cardinalSpec deg = jsIndex Loc.directions (j.emod 16) := by
      rw [Loc.cardinalSpec, hspecround]
      congr 1
      show (16 * k + j) % 16 = j % 16
      omega
    have hemod0 : 0 ≤ j.emod 16 := Int.emod_nonneg j (by norm_num)
    have hemod16 : j.emod 16 < 16 := Int.emod_lt_of_pos j (by norm_num)
    refine ⟨?_, by rw [hcode, hspec]⟩
    rw [hcode, jsIndex, if_pos hemod0]
    have hlt : (j.emod 16).toNat < Loc.directions.length := by
      simp only [Loc.directions, List.length_cons, List.length_nil]
      omega
    simp [List.get?_eq_getElem?, List.getElem?_eq_getElem hlt]
  · have h0 : jsMod (0 : ℝ) 360 = 0 := by
      rw [jsMod, jsTrunc, if_pos (by norm_num)]
      norm_num
    have h360 : jsMod (360 : ℝ) 360 = 0 := by
      rw [jsMod, jsTrunc, if_pos (by norm_num)]
      rw [show (360 : ℝ) / 360 = 1 by norm_num]
      norm_num
    rw [Loc.convertDegreesToCardinal, Loc.convertDegreesToCardinal, h0, h360]

/-- The haversine distance between a point and itself is zero. -/
theorem calculateDistance_self (la lo : ℝ) : WS.calculateDistance la lo la lo = 0 := by
  simp only [WS.calculateDistance, sub_self, zero_mul, zero_div, Real.sin_zero, mul_zero,
    add_zero, zero_add, Real.sqrt_zero, sub_zero, Real.sqrt_one, atan2]
  rw [if_pos (by norm_num)]
  norm_num [Real.arctan_zero]

/-- C3 counterexample: with `minStations = 4 > maxStations = 3` and a radius
that excludes everything, the reliability floor returns the four closest
stations, exceeding `maxStations`, so the cap does not hold for every
configuration. -/
theorem C3_station_cap_counterexample :
    WS.filterNearbyStations demoStations (some 1) (some 1) cfgDemo = demoStations ∧
    ¬ ((WS.filterNearbyStations demoStations (some 1) (some 1) cfgDemo).length ≤
        cfgDemo.maxStations) := by
  have hmain : WS.filterNearbyStations demoStations (some 1) (some 1) cfgDemo = demoStations := by
    simp only [WS.filterNearbyStations]
    rw [if_neg (by norm_num)]
    norm_num [demoStations, demoStation, cfgDemo,
      List.filterMap_cons, List.filter_cons, WS.distPairLe, List.insertionSort,
      List.orderedInsert, decide_eq_true_eq, calculateDistance_self]
  exact ⟨hmain, by rw [hmain]; decide⟩

/-- C3 amended: with a usable (nonzero, supplied) reference location the
filter returns at most `max maxStations minStations` entries — the radius
branch is capped by `maxStations` and the reliability floor by `minStations`;
with an absent or zero coordinate the input list is returned unchanged
(theorem `C10_zero_coordinate_bypass`). -/
theorem C3_station_cap_amended (stations : List Station) (la lo : ℝ) (config : WeatherConfig)
    (hla : la ≠ 0) (hlo : lo ≠ 0) :
    (WS.filterNearbyStations stations (some la) (some lo) config).length ≤
      max config.maxStations config.minStations := by
  simp only [WS.filterNearbyStations]
  rw [if_neg (not_or.mpr ⟨hla, hlo⟩)]
  split_ifs with h
  · rw [List.length_map, List.length_take]
    exact le_trans (min_le_left _ _) (le_max_right _ _)
  · rw [List.length_map, List.length_take]
    exact le_trans (min_le_left _ _) (le_max_left _ _)

/-- C3 amended witness: the demo configuration instantiates the bound. -/
theorem C3_station_cap_amended_witness :
    (WS.filterNearbyStations demoStations (some 1) (some 1) cfgDemo).length ≤
      max cfgDemo.maxStations cfgDemo.minStations :=
  C3_station_cap_amended demoStations 1 1 cfgDemo (by norm_num) (by norm_num)

/-- The cache entry check comes out empty when refresh is forced or the read
misses. -/
theorem afterRead_fst_none (forceRefresh : Bool) (cache : Option CachedData) (now : ℕ)
    (hpath : forceRefresh = true ∨ (WS.getCachedData cache now).1 = none) :
    (if forceRefresh then ((none : Option WeatherData), cache)
      else WS.getCachedData cache now).1 = none := by
  cases forceRefresh
  · rcases hpath with h | h
    · exact absurd h (by simp)
    · simpa using h
  · rfl

/-- The cache entry check never adds an entry: the slot afterwards is the old
slot or nothing. -/
theorem afterRead_snd_cases (forceRefresh : Bool) (cache : Option CachedData) (now : ℕ) :
    (if forceRefresh then ((none : Option WeatherData), cache)
        else WS.getCachedData cache now).2 = cache ∨
    (if forceRefresh then ((none : Option WeatherData), cache)
        else WS.getCachedData cache now).2 = none := by
  cases forceRefresh
  · simp only [Bool.false_eq_true, if_false]
    cases cache with
    | none => exact Or.inr rfl
    | some c =>
      simp only [WS.getCachedData]
      split_ifs
      · exact Or.inr rfl
      · exact Or.inl rfl
  · exact Or.inl (by simp)

/-- Once the entry check misses, the wind-endpoint flag of the whole call is
the flag the fresh acquisition reports. -/
theorem fetchWeatherData_windFetched (forceRefresh : Bool) (cache : Option CachedData)
    (now : ℕ) (nowIso : String) (rain ws wd : GenericApiResponse)
    (userLocation : Option UserLocation) (config : WeatherConfig)
    (hpath : forceRefresh = true ∨ (WS.getCachedData cache now).1 = none) :
    (WS.fetchWeatherData forceRefresh cache now nowIso rain ws wd userLocation
        config).windFetched =
      (WS.acquireFresh rain ws wd userLocation config nowIso).1 := by
  simp only [WS.fetchWeatherData, afterRead_fst_none forceRefresh cache now hpath]
  cases (WS.acquireFresh rain ws wd userLocation config nowIso).2 <;> rfl

/-- With a successful rainfall response the fresh acquisition calls the wind
endpoints exactly when the 1 mm rainfall gate fires. -/
theorem acquireFresh_windFlag (rain ws wd : GenericApiResponse)
    (userLocation : Option UserLocation) (config : WeatherConfig) (nowIso : String)
    (rdata : ApiData) (hcode : rain.code = 0) (hdata : rain.data = some rdata) :
    (WS.acquireFresh rain ws wd userLocation config nowIso).1 =
      WS.significantRain rdata := by
  simp only [WS.acquireFresh, hdata]
  rw [if_neg (by simp [hcode])]
  cases hsig : WS.significantRain rdata
  · simp [hsig]
  · simp only [hsig, if_true]
    rcases ws.data with _ | wsdata
    · rfl
    · dsimp only
      split_ifs <;>
        first
          | rfl
          | (rcases wd.data with _ | wddata <;> rfl)

/-- When the rainfall gate does not fire, the fresh acquisition succeeds
without wind: empty wind maps and an unset flag. -/
theorem acquireFresh_noRain (rain ws wd : GenericApiResponse)
    (userLocation : Option UserLocation) (config : WeatherConfig) (nowIso : String)
    (rdata : ApiData) (hcode : rain.code = 0) (hdata : rain.data = some rdata)
    (hsig : WS.significantRain rdata = false) :
    WS.acquireFresh rain ws wd userLocation config nowIso =
      (false, .ok (WS.assembleSnapshot rdata none none (WS.extractRecord rdata) [] [] []
        (WS.significantRain rdata) userLocation config nowIso)) := by
  simp only [WS.acquireFresh, hdata]
  rw [if_neg (by simp [hcode])]
  simp [hsig]

/-- A fresh acquisition that succeeds writes its snapshot to the cache slot
and returns it. -/
theorem fetchWeatherData_result_ok (forceRefresh : Bool) (cache : Option CachedData)
    (now : ℕ) (nowIso : String) (rain ws wd : GenericApiResponse)
    (userLocation : Option UserLocation) (config : WeatherConfig) (snap : WeatherData)
    (hpath : forceRefresh = true ∨ (WS.getCachedData cache now).1 = none)
    (hok : (WS.acquireFresh rain ws wd userLocation config nowIso).2 = .ok snap) :
    (WS.fetchWeatherData forceRefresh cache now nowIso rain ws wd userLocation
        config).result = .ok snap ∧
    (WS.fetchWeatherData forceRefresh cache now nowIso rain ws wd userLocation
        config).cacheAfter = some (WS.setCachedData now snap) := by
  simp only [WS.fetchWeatherData, afterRead_fst_none forceRefresh cache now hpath, hok]
  constructor <;> first | trivial | rfl

/-- A fresh acquisition that fails wraps the originating message and leaves
the slot as the entry check left it: the old entry or nothing, never a new
snapshot. -/
theorem fetchWeatherData_result_err (forceRefresh : Bool) (cache : Option CachedData)
    (now : ℕ) (nowIso : String) (rain ws wd : GenericApiResponse)
    (userLocation : Option UserLocation) (config : WeatherConfig) (e : String)
    (hpath : forceRefresh = true ∨ (WS.getCachedData cache now).1 = none)
    (herr : (WS.acquireFresh rain ws wd userLocation config nowIso).2 = .error e) :
    (WS.fetchWeatherData forceRefresh cache now nowIso rain ws wd userLocation
        config).result = .error ("Could not retrieve weather data: " ++ e) ∧
    ((WS.fetchWeatherData forceRefresh cache now nowIso rain ws wd userLocation
        config).cacheAfter = cache ∨
     (WS.fetchWeatherData forceRefresh cache now nowIso rain ws wd userLocation
        config).cacheAfter = none) := by
  simp only [WS.fetchWeatherData, afterRead_fst_none forceRefresh cache now hpath, herr]
  refine ⟨by first | trivial | rfl, ?_⟩
  exact afterRead_snd_cases forceRefresh cache now

/-- The assembled snapshot carries the flag it is given. -/
theorem assembleSnapshot_flag (rdata : ApiData) (wsData wdData : Option ApiData)
    (rm wsm wdm : List (String × ℝ)) (wv : List (String × WindVector)) (sig : Bool)
    (ul : Option UserLocation) (config : WeatherConfig) (nowIso : String) :
    (WS.assembleSnapshot rdata wsData wdData rm wsm wdm wv sig ul config
        nowIso).significantRainDetected = sig := rfl

/-- An empty wind-speed map stays empty through assembly. -/
theorem assembleSnapshot_windSpeedMap_nil (rdata : ApiData) (wsData wdData : Option ApiData)
    (rm wdm : List (String × ℝ)) (wv : List (String × WindVector)) (sig : Bool)
    (ul : Option UserLocation) (config : WeatherConfig) (nowIso : String) :
    (WS.assembleSnapshot rdata wsData wdData rm [] wdm wv sig ul config
        nowIso).windSpeedMap = [] := by
  simp [WS.assembleSnapshot, WS.filterRecord]

/-- An empty wind-direction map stays empty through assembly. -/
theorem assembleSnapshot_windDirectionMap_nil (rdata : ApiData)
    (wsData wdData : Option ApiData) (rm wsm : List (String × ℝ))
    (wv : List (String × WindVector)) (sig : Bool) (ul : Option UserLocation)
    (config : WeatherConfig) (nowIso : String) :
    (WS.assembleSnapshot rdata wsData wdData rm wsm [] wv sig ul config
        nowIso).windDirectionMap = [] := by
  simp [WS.assembleSnapshot, WS.filterRecord]

/-- An empty wind-vector map stays empty through assembly. -/
theorem assembleSnapshot_windVectors_nil (rdata : ApiData) (wsData wdData : Option ApiData)
    (rm wsm wdm : List (String × ℝ)) (sig : Bool) (ul : Option UserLocation)
    (config : WeatherConfig) (nowIso : String) :
    (WS.assembleSnapshot rdata wsData wdData rm wsm wdm [] sig ul config
        nowIso).windVectors = [] := by
  simp [WS.assembleSnapshot, WS.filterRecord]

/-- C2: with a successful rainfall response, if every station of the latest
batch reports below 1 mm the produced snapshot has the significant-rain flag
false and empty wind-speed, wind-direction and wind-vector maps with no wind
endpoint called; and the wind endpoints are called exactly when some station
reports at least 1 mm. -/
theorem C2_acquisition_gate (forceRefresh : Bool) (cache : Option CachedData) (now : ℕ)
    (nowIso : String) (rain ws wd : GenericApiResponse) (userLocation : Option UserLocation)
    (config : WeatherConfig) (rdata : ApiData)
    (hpath : forceRefresh = true ∨ (WS.getCachedData cache now).1 = none)
    (hcode : rain.code = 0) (hdata : rain.data = some rdata) :
    ((∀ p ∈ WS.extractRecord rdata, p.2 < 1) →
        (WS.fetchWeatherData forceRefresh cache now nowIso rain ws wd userLocation
            config).windFetched = false ∧
        (WS.fetchWeatherData forceRefresh cache now nowIso rain ws wd userLocation
            config).result.toOption.map WeatherData.significantRainDetected = some false ∧
        (WS.fetchWeatherData forceRefresh cache now nowIso rain ws wd userLocation
            config).result.toOption.map WeatherData.windSpeedMap = some [] ∧
        (WS.fetchWeatherData forceRefresh cache now nowIso rain ws wd userLocation
            config).result.toOption.map WeatherData.windDirectionMap = some [] ∧
        (WS.fetchWeatherData forceRefresh cache now nowIso rain ws wd userLocation
            config).result.toOption.map WeatherData.windVectors = some []) ∧
    ((WS.fetchWeatherData forceRefresh cache now nowIso rain ws wd userLocation
        config).windFetched = true ↔
      ∃ p ∈ WS.extractRecord rdata, (1 : ℝ) ≤ p.2) := by
  have hwf := fetchWeatherData_windFetched forceRefresh cache now nowIso rain ws wd
    userLocation config hpath
  have hflag := acquireFresh_windFlag rain ws wd userLocation config nowIso rdata hcode hdata
  constructor
  · intro hall
    have hsig : WS.significantRain rdata = false := by
      rw [WS.significantRain, decide_eq_false_iff_not]
      rintro ⟨p, hp, hge⟩
      exact absurd hge (not_le.mpr (hall p hp))
    have hacq := acquireFresh_noRain rain ws wd userLocation config nowIso rdata hcode
      hdata hsig
    have hok : (WS.acquireFresh rain ws wd userLocation config nowIso).2 =
        .ok (WS.assembleSnapshot rdata none none (WS.extractRecord rdata) [] [] []
          (WS.significantRain rdata) userLocation config nowIso) := by rw [hacq]
    have hres := fetchWeatherData_result_ok forceRefresh cache now nowIso rain ws wd
      userLocation config _ hpath hok
    refine ⟨by rw [hwf, hflag, hsig], ?_, ?_, ?_, ?_⟩ <;>
        rw [hres.1] <;>
      simp only [Except.toOption, Option.map_some, Option.map_some', Option.some.injEq,
        assembleSnapshot_flag, assembleSnapshot_windSpeedMap_nil,
        assembleSnapshot_windDirectionMap_nil, assembleSnapshot_windVectors_nil, hsig]
  · rw [hwf, hflag, WS.significantRain, decide_eq_true_eq]

/-- C2 witness: a forced refresh against a sub-millimetre rainfall batch calls
no wind endpoint and returns an empty wind-speed map. -/
theorem C2_acquisition_gate_witness :
    (WS.fetchWeatherData true none 0 ("t") rainLow respDummy respDummy none
        cfgDemo).windFetched = false ∧
    (WS.fetchWeatherData true none 0 ("t") rainLow respDummy respDummy none
        cfgDemo).result.toOption.map WeatherData.windSpeedMap = some [] := by
  have h := C2_acquisition_gate true none 0 ("t") rainLow respDummy respDummy none cfgDemo
    rdataLow (Or.inl rfl) rfl rfl
  have hall : ∀ p ∈ WS.extractRecord rdataLow, p.2 < 1 := by
    intro p hp
    simp only [WS.extractRecord, rdataLow, WS.buildRecord, recordSet, List.head?,
      List.foldl, List.map_nil, List.contains_nil, List.nil_append, Bool.false_eq_true,
      if_false, List.mem_singleton] at hp
    subst hp
    norm_num
  exact ⟨(h.1 hall).1, (h.1 hall).2.2.1⟩

/-- A failing rainfall feed aborts the acquisition with the rainfall message. -/
theorem acquireFresh_rainErr (rain ws wd : GenericApiResponse)
    (userLocation : Option UserLocation) (config : WeatherConfig) (nowIso : String)
    (h : rain.code ≠ 0) :
    (WS.acquireFresh rain ws wd userLocation config nowIso).2 =
      .error (jsOrElse rain.errorMsg ("Rainfall API returned an error without a message.")) := by
  rcases hd : rain.data with _ | rdata
  · simp [WS.acquireFresh, hd]
  · simp only [WS.acquireFresh, hd]
    rw [if_pos h]

/-- A failing wind-speed feed after the gate fires aborts the acquisition with
the wind-speed message. -/
theorem acquireFresh_wsErr (rain ws wd : GenericApiResponse)
    (userLocation : Option UserLocation) (config : WeatherConfig) (nowIso : String)
    (rdata : ApiData) (hcode : rain.code = 0) (hdata : rain.data = some rdata)
    (hsig : WS.significantRain rdata = true) (h : ws.code ≠ 0) :
    (WS.acquireFresh rain ws wd userLocation config nowIso).2 =
      .error (jsOrElse ws.errorMsg ("Wind speed API returned an error without a message.")) := by
  simp only [WS.acquireFresh, hdata]
  rw [if_neg (by simp [hcode])]
  simp only [hsig, if_true]
  rcases ws.data with _ | wsdata
  · rfl
  · dsimp only
    rw [if_pos h]

/-- A failing wind-direction feed after the gate fires aborts the acquisition
with the wind-direction message. -/
theorem acquireFresh_wdErr (rain ws wd : GenericApiResponse)
    (userLocation : Option UserLocation) (config : WeatherConfig) (nowIso : String)
    (rdata wsdata : ApiData) (hcode : rain.code = 0) (hdata : rain.data = some rdata)
    (hsig : WS.significantRain rdata = true) (hws : ws.code = 0)
    (hwsd : ws.data = some wsdata) (h : wd.code ≠ 0) :
    (WS.acquireFresh rain ws wd userLocation config nowIso).2 =
      .error (jsOrElse wd.errorMsg ("Wind direction API returned an error without a message.")) := by
  simp only [WS.acquireFresh, hdata]
  rw [if_neg (by simp [hcode])]
  simp only [hsig, if_true, hwsd]
  rw [if_neg (by simp [hws])]
  rcases wd.data with _ | wddata
  · rfl
  · dsimp only
    rw [if_pos h]

/-- C7: whenever a consulted feed returns a non-zero status code, the call
fails with a single error that wraps the upstream `errorMsg` (or the fixed
fallback text when that message is absent or empty), and the failed cycle
writes no snapshot: the weather cache slot afterwards is the old entry or
nothing. -/
theorem C7_upstream_error_propagation (forceRefresh : Bool) (cache : Option CachedData)
    (now : ℕ) (nowIso : String) (rain ws wd : GenericApiResponse)
    (userLocation : Option UserLocation) (config : WeatherConfig)
    (hpath : forceRefresh = true ∨ (WS.getCachedData cache now).1 = none) :
    (rain.code ≠ 0 →
        (WS.fetchWeatherData forceRefresh cache now nowIso rain ws wd userLocation
            config).result = .error ("Could not retrieve weather data: " ++
          jsOrElse rain.errorMsg ("Rainfall API returned an error without a message.")) ∧
        ((WS.fetchWeatherData forceRefresh cache now nowIso rain ws wd userLocation
            config).cacheAfter = cache ∨
         (WS.fetchWeatherData forceRefresh cache now nowIso rain ws wd userLocation
            config).cacheAfter = none)) ∧
    (∀ rdata : ApiData, rain.code = 0 → rain.data = some rdata →
        WS.significantRain rdata = true → ws.code ≠ 0 →
        (WS.fetchWeatherData forceRefresh cache now nowIso rain ws wd userLocation
            config).result = .error ("Could not retrieve weather data: " ++
          jsOrElse ws.errorMsg ("Wind speed API returned an error without a message.")) ∧
        ((WS.fetchWeatherData forceRefresh cache now nowIso rain ws wd userLocation
            config).cacheAfter = cache ∨
         (WS.fetchWeatherData forceRefresh cache now nowIso rain ws wd userLocation
            config).cacheAfter = none)) ∧
    (∀ (rdata wsdata : ApiData), rain.code = 0 → rain.data = some rdata →
        WS.significantRain rdata = true → ws.code = 0 → ws.data = some wsdata →
        wd.code ≠ 0 →
        (WS.fetchWeatherData forceRefresh cache now nowIso rain ws wd userLocation
            config).result = .error ("Could not retrieve weather data: " ++
          jsOrElse wd.errorMsg ("Wind direction API returned an error without a message.")) ∧
        ((WS.fetchWeatherData forceRefresh cache now nowIso rain ws wd userLocation
            config).cacheAfter = cache ∨
         (WS.fetchWeatherData forceRefresh cache now nowIso rain ws wd userLocation
            config).cacheAfter = none)) := by
  refine ⟨fun h => ?_, fun rdata hcode hdata hsig h => ?_, fun rdata wsdata hcode hdata hsig hws hwsd h => ?_⟩
  · exact fetchWeatherData_result_err forceRefresh cache now nowIso rain ws wd userLocation
      config _ hpath (acquireFresh_rainErr rain ws wd userLocation config nowIso h)
  · exact fetchWeatherData_result_err forceRefresh cache now nowIso rain ws wd userLocation
      config _ hpath
      (acquireFresh_wsErr rain ws wd userLocation config nowIso rdata hcode hdata hsig h)
  · exact fetchWeatherData_result_err forceRefresh cache now nowIso rain ws wd userLocation
      config _ hpath
      (acquireFresh_wdErr rain ws wd userLocation config nowIso rdata wsdata hcode hdata
        hsig hws hwsd h)

/-- C7 witness: a rainfall feed failing with status 1 and message boom makes a
forced refresh fail with that message preserved and leaves the empty cache
slot empty. -/
theorem C7_upstream_error_propagation_witness :
    (WS.fetchWeatherData true none 0 ("t") rainFail respDummy respDummy none
        cfgDemo).result = .error ("Could not retrieve weather data: boom") ∧
    (WS.fetchWeatherData true none 0 ("t") rainFail respDummy respDummy none
        cfgDemo).cacheAfter = none := by
  have h := (C7_upstream_error_propagation true none 0 ("t") rainFail respDummy respDummy
    none cfgDemo (Or.inl rfl)).1 (by simp [rainFail])
  refine ⟨?_, ?_⟩
  · rw [h.1]
    simp [rainFail, jsOrElse]
  · rcases h.2 with h2 | h2 <;> exact h2

/-- The worker haversine and the synchronous-fallback haversine are the same
function. -/
theorem worker_haversine_eq_sync :
    DistanceWorker.calculateDistance = ThreadedCalc.calculateDistanceSync := rfl

/-- Contiguous shards reassemble to the input list. -/
theorem chunkList_flatten (k : ℕ) (hk : 0 < k) (l : List SlimStation) :
    (ThreadedCalc.chunkList k l).flatten = l := by
  rw [ThreadedCalc.chunkList]
  split_ifs with h
  · rcases h with h | h
    · omega
    · subst h
      rfl
  · push_neg at h
    simp only [List.flatten_cons]
    rw [chunkList_flatten k hk (l.drop k)]
    exact List.take_append_drop k l
termination_by l.length
decreasing_by
  push_neg at h
  cases l with
  | nil => exact absurd rfl h.2
  | cons a t =>
    simp only [List.length_drop, List.length_cons]
    omega

/-- A key missing from a record has no binding. -/
theorem lastLookup_none (k : String) (m : List (String × ℝ))
    (h : k ∉ m.map Prod.fst) : ThreadedCalc.lastLookup k m = none := by
  induction m with
  | nil => rfl
  | cons p l ih =>
    simp only [List.map_cons, List.mem_cons, not_or] at h
    rw [ThreadedCalc.lastLookup, ih h.2, if_neg (fun he => h.1 he.symm)]

/-- The keys of the per-station result list are station ids. -/
theorem resultKeys_sub (f : UserLocation → ℝ) (l : List Station) (k : String)
    (h : k ∈ (l.filterMap fun t => t.labelLocation.map fun loc => (t.id, f loc)).map
      Prod.fst) : k ∈ l.map Station.id := by
  induction l with
  | nil => simpa using h
  | cons t rest ih =>
    simp only [List.filterMap_cons] at h
    cases hloc : t.labelLocation with
    | none =>
      rw [hloc] at h
      exact List.mem_cons_of_mem _ (ih h)
    | some loc =>
      rw [hloc] at h
      simp only [Option.map_some', List.map_cons, List.mem_cons] at h
      rcases h with h | h
      · simp [h]
      · exact List.mem_cons_of_mem _ (ih (by simpa using h))

/-- With pairwise distinct station ids, looking a station's id up in the
keyed results returns exactly that station's distance (or nothing when the
station has no location). -/
theorem lastLookup_eval (f : UserLocation → ℝ) (stations : List Station)
    (hnd : (stations.map Station.id).Nodup) (s : Station) (hs : s ∈ stations) :
    ThreadedCalc.lastLookup s.id
        (stations.filterMap fun t => t.labelLocation.map fun loc => (t.id, f loc)) =
      s.labelLocation.map f := by
  induction stations with
  | nil => cases hs
  | cons t rest ih =>
    rw [List.map_cons, List.nodup_cons] at hnd
    rcases List.mem_cons.mp hs with rfl | hs
    · cases hloc : s.labelLocation with
      | none =>
        simp only [List.filterMap_cons, hloc, Option.map_none']
        rw [lastLookup_none _ _ (fun hk => hnd.1 (resultKeys_sub f rest s.id hk))]
      | some loc =>
        simp only [List.filterMap_cons, hloc, Option.map_some']
        simp only [ThreadedCalc.lastLookup]
        rw [lastLookup_none _ _ (fun hk => hnd.1 (resultKeys_sub f rest s.id hk))]
        simp
    · have hne : t.id ≠ s.id := fun he =>
        hnd.1 (he ▸ List.mem_map_of_mem Station.id hs)
      cases hloc : t.labelLocation with
      | none =>
        simp only [List.filterMap_cons, hloc, Option.map_none']
        exact ih hnd.2 hs
      | some loc =>
        simp only [List.filterMap_cons, hloc, Option.map_some']
        simp only [ThreadedCalc.lastLookup]
        rw [ih hnd.2 hs]
        cases hsl : s.labelLocation with
        | none => simp [hne]
        | some sloc => simp

/-- The single-worker result list is the per-located-station keyed distance
list. -/
theorem worker_results_eq (userLat userLon : ℝ) (stations : List Station) :
    DistanceWorker.calculateDistancesForStations userLat userLon
        (stations.filterMap fun s => s.labelLocation.map fun loc =>
          SlimStation.mk s.id loc.latitude loc.longitude) =
      stations.filterMap fun t => t.labelLocation.map fun loc =>
        (t.id, DistanceWorker.calculateDistance userLat userLon loc.latitude
          loc.longitude) := by
  rw [DistanceWorker.calculateDistancesForStations, List.map_filterMap]
  apply List.filterMap_congr
  intro s _
  cases s.labelLocation <;> rfl

/-- Merging the keyed results back over a station list with distinct ids
yields the synchronous result list. -/
theorem mapResults_eval (userLat userLon : ℝ) (stations : List Station)
    (hnd : (stations.map Station.id).Nodup) :
    ThreadedCalc.mapResultsToStations
        (stations.filterMap fun t => t.labelLocation.map fun loc =>
          (t.id, DistanceWorker.calculateDistance userLat userLon loc.latitude
            loc.longitude))
        stations =
      ThreadedCalc.calculateDistancesSync stations userLat userLon := by
  rw [ThreadedCalc.mapResultsToStations, ThreadedCalc.calculateDistancesSync]
  apply List.filterMap_congr
  intro s hs
  rw [lastLookup_eval _ stations hnd s hs]
  rw [Option.map_map]
  rfl

/-- Mapping the worker computation over shards and flattening equals one
worker pass over the flattened shards. -/
theorem worker_map_flatten (userLat userLon : ℝ) (L : List (List SlimStation)) :
    (L.map (DistanceWorker.calculateDistancesForStations userLat userLon)).flatten =
      DistanceWorker.calculateDistancesForStations userLat userLon L.flatten := by
  induction L with
  | nil => rfl
  | cons a t ih =>
    simp only [List.map_cons, List.flatten_cons, ih,
      DistanceWorker.calculateDistancesForStations, List.map_append]

/-- C9: for a station list with pairwise distinct ids and any positive worker
pool, the parallel distance path (per-shard worker haversine merged by
station id) and the synchronous fallback path return identical results — in
particular the same distance for every station that has a location. -/
theorem C9_parallel_sync_agreement (poolSize : ℕ) (stations : List Station)
    (userLat userLon : ℝ) (hpool : 0 < poolSize)
    (hnd : (stations.map Station.id).Nodup) :
    ThreadedCalc.calculateDistancesParallel poolSize stations userLat userLon =
      ThreadedCalc.calculateDistancesSync stations userLat userLon := by
  simp only [ThreadedCalc.calculateDistancesParallel]
  split_ifs with h0 h20
  · have hempty := List.length_eq_zero.mp h0
    symm
    rw [ThreadedCalc.calculateDistancesSync, List.filterMap_eq_nil]
    intro s hs
    have h2 := List.filterMap_eq_nil.mp hempty s hs
    cases hsl : s.labelLocation with
    | none => rfl
    | some loc => rw [hsl] at h2; simp at h2
  · rw [worker_results_eq, mapResults_eval userLat userLon stations hnd]
  · rw [worker_map_flatten, chunkList_flatten _ ?hpos _, worker_results_eq,
      mapResults_eval userLat userLon stations hnd]
    case hpos =>
      apply Nat.div_pos
      · have hm : min poolSize (stations.filterMap fun s => s.labelLocation.map fun loc =>
            SlimStation.mk s.id loc.latitude loc.longitude).length ≤
            (stations.filterMap fun s => s.labelLocation.map fun loc =>
              SlimStation.mk s.id loc.latitude loc.longitude).length :=
          min_le_right _ _
        omega
      · have h21 : 20 < (stations.filterMap fun s => s.labelLocation.map fun loc =>
            SlimStation.mk s.id loc.latitude loc.longitude).length := by omega
        exact lt_min hpool (by omega)

/-- C9 witness: one worker over one located station agrees with the
synchronous path. -/
theorem C9_parallel_sync_agreement_witness :
    ThreadedCalc.calculateDistancesParallel 1 [stWest] 3 4 =
      ThreadedCalc.calculateDistancesSync [stWest] 3 4 :=
  C9_parallel_sync_agreement 1 [stWest] 3 4 (by norm_num) (by simp)

/-- A point `y` km due north of `uZero` projects to the Cartesian offset
`(0, y)`. -/
theorem toCartesian_north (y : ℝ) : Loc.toCartesian (northLoc y) uZero = (0, y) := by
  refine Prod.ext ?_ ?_
  · show 6371 * Loc.deg2rad ((northLoc y).longitude - uZero.longitude) *
      Real.cos (Loc.deg2rad uZero.latitude) = 0
    simp only [northLoc, uZero, Loc.deg2rad]
    ring
  · show 6371 * Loc.deg2rad ((northLoc y).latitude - uZero.latitude) = y
    simp only [northLoc, uZero, latNorth, Loc.deg2rad]
    field_simp
    ring

/-- The station-to-user vector of the north scenario. -/
theorem stationToUserVec_north (y : ℝ) :
    Loc.stationToUserVec uZero (northLoc y) = (0, -y) := by
  rw [Loc.stationToUserVec, toCartesian_north]
  norm_num

/-- The station-to-user distance of the north scenario. -/
theorem distanceToUser_north (y : ℝ) (hy : 0 ≤ y) :
    Loc.distanceToUser uZero (northLoc y) = y := by
  simp only [Loc.distanceToUser, stationToUserVec_north]
  rw [show (0 : ℝ) * 0 + -y * -y = y ^ 2 by ring, Real.sqrt_sq hy]

/-- The dot product of a due-south wind with the north-scenario
station-to-user vector. -/
theorem dotProduct_north (y v : ℝ) :
    Loc.dotProduct uZero (northLoc y) (southWind v) = v * y := by
  simp only [Loc.dotProduct, stationToUserVec_north, southWind]
  ring

/-- The effective closing speed of the north scenario is the wind speed. -/
theorem effectiveVelocity_north (y v : ℝ) (hy : 0 < y) :
    Loc.effectiveVelocity uZero (northLoc y) (southWind v) = v := by
  rw [Loc.effectiveVelocity, dotProduct_north, distanceToUser_north y hy.le]
  field_simp

/-- The unrounded arrival time of the north scenario. -/
theorem timeToReach_north (y v : ℝ) (hy : 0 < y) (hv : v ≠ 0) :
    Loc.timeToReach uZero (northLoc y) (southWind v) = y / v * 60 := by
  rw [Loc.timeToReach, effectiveVelocity_north y v hy, distanceToUser_north y hy.le]

/-- The prediction loop body in the north scenario: the station qualifies
exactly when its unrounded arrival time is within 15 minutes. -/
theorem threatOf_north (w : WeatherData) (st : Station) (y v : ℝ)
    (hst : st.labelLocation = some (northLoc y))
    (hwv : lookupRecord w.windVectors st.id = some (southWind v))
    (hy : 0 < y) (hv : 0 < v) :
    Loc.threatOf uZero w st =
      if y / v * 60 ≤ 15 then some ⟨st.name, jsRound (y / v * 60), y⟩ else none := by
  simp only [Loc.threatOf, hst, hwv]
  rw [dotProduct_north, if_pos (mul_pos hv hy),
    effectiveVelocity_north y v hy, if_pos hv,
    timeToReach_north y v hy hv.ne', distanceToUser_north y hy.le]

/-- C4: a candidate with positive dot product qualifies as a threat exactly
when its computed time-to-arrive is at most 15 minutes — the boundary is
included. -/
theorem C4_threat_boundary (u : UserLocation) (w : WeatherData) (s : Station)
    (loc : UserLocation) (wv : WindVector) (hloc : s.labelLocation = some loc)
    (hwv : lookupRecord w.windVectors s.id = some wv)
    (hdot : 0 < Loc.dotProduct u loc wv) :
    (Loc.threatOf u w s).isSome = true ↔ Loc.timeToReach u loc wv ≤ 15 := by
  have hdist : 0 < Loc.distanceToUser u loc := by
    by_contra hnd
    push_neg at hnd
    have h0 : Real.sqrt ((Loc.stationToUserVec u loc).1 * (Loc.stationToUserVec u loc).1 +
        (Loc.stationToUserVec u loc).2 * (Loc.stationToUserVec u loc).2) = 0 :=
      le_antisymm hnd (Real.sqrt_nonneg _)
    have hXY := Real.sqrt_eq_zero'.mp h0
    have hX : (Loc.stationToUserVec u loc).1 = 0 := by nlinarith
    have hY : (Loc.stationToUserVec u loc).2 = 0 := by nlinarith
    rw [Loc.dotProduct, hX, hY] at hdot
    norm_num at hdot
  have heff : 0 < Loc.effectiveVelocity u loc wv := div_pos hdot hdist
  simp only [Loc.threatOf, hloc, hwv]
  rw [if_pos hdot, if_pos heff]
  by_cases ht : Loc.timeToReach u loc wv ≤ 15
  · simp [ht]
  · simp [ht]

/-- C4 witness: a rainy station 10 km due north with wind due south at
40 km/h has an arrival time of exactly 15 minutes and qualifies as a threat. -/
theorem C4_threat_boundary_witness :
    Loc.timeToReach uZero (northLoc 10) (southWind 40) = 15 ∧
    (Loc.threatOf uZero wOne stNorth).isSome = true := by
  have ht : Loc.timeToReach uZero (northLoc 10) (southWind 40) = 15 := by
    rw [timeToReach_north 10 40 (by norm_num) (by norm_num)]
    norm_num
  refine ⟨ht, ?_⟩
  have hwv : lookupRecord wOne.windVectors stNorth.id = some (southWind 40) := by
    simp [wOne, stNorth, lookupRecord]
  have hdot : 0 < Loc.dotProduct uZero (northLoc 10) (southWind 40) := by
    rw [dotProduct_north]
    norm_num
  have h := C4_threat_boundary uZero wOne stNorth (northLoc 10) (southWind 40) rfl hwv hdot
  exact h.mpr (by rw [ht])

/-- The threat comparator order is total. -/
theorem threatLe_total (a b : Loc.Threat) : Loc.threatLe a b ∨ Loc.threatLe b a := by
  rw [Loc.threatLe, Loc.threatLe]
  rcases lt_trichotomy a.timeToReach b.timeToReach with h | h | h
  · exact Or.inl (Or.inl h)
  · rcases le_total a.distance b.distance with hd | hd
    · exact Or.inl (Or.inr ⟨h, hd⟩)
    · exact Or.inr (Or.inr ⟨h.symm, hd⟩)
  · exact Or.inr (Or.inl h)

/-- The threat comparator order is transitive. -/
theorem threatLe_trans (a b c : Loc.Threat) (hab : Loc.threatLe a b)
    (hbc : Loc.threatLe b c) : Loc.threatLe a c := by
  rcases hab with h1 | ⟨h1, d1⟩ <;> rcases hbc with h2 | ⟨h2, d2⟩
  · exact Or.inl (lt_trans h1 h2)
  · exact Or.inl (h2 ▸ h1)
  · exact Or.inl (h1 ▸ h2)
  · exact Or.inr ⟨h1.trans h2, d1.trans d2⟩

/-- The threat comparator order is reflexive. -/
theorem threatLe_refl (a : Loc.Threat) : Loc.threatLe a a :=
  Or.inr ⟨rfl, le_refl _⟩

/-- C1 amended: when the sorted threat list is nonempty, the message names
the station of its head, a threat that is minimal for the realized order —
rounded whole-minute arrival time first, then distance. The unrounded
time-to-arrive does not drive the selection (see the counterexample). -/
theorem C1_threat_selection_amended (u : UserLocation) (w : WeatherData) (c : Loc.Threat)
    (rest : List Loc.Threat) (hsig : w.significantRainDetected = true)
    (hsort : List.insertionSort Loc.threatLe (Loc.computeThreats u w) = c :: rest) :
    (c ∈ Loc.computeThreats u w ∧ ∀ t ∈ Loc.computeThreats u w, Loc.threatLe c t) ∧
    Loc.calculateRainPrediction u w =
      (if c.timeToReach ≤ 5 then Loc.closeMessage c else Loc.approachMessage c) := by
  haveI : IsTotal Loc.Threat Loc.threatLe := ⟨threatLe_total⟩
  haveI : IsTrans Loc.Threat Loc.threatLe := ⟨threatLe_trans⟩
  have hperm := List.perm_insertionSort Loc.threatLe (Loc.computeThreats u w)
  rw [hsort] at hperm
  have hmem : c ∈ Loc.computeThreats u w :=
    hperm.mem_iff.mp (List.mem_cons_self c rest)
  have hsorted := List.sorted_insertionSort Loc.threatLe (Loc.computeThreats u w)
  rw [hsort] at hsorted
  have hmin : ∀ t ∈ Loc.computeThreats u w, Loc.threatLe c t := by
    intro t ht
    rcases List.mem_cons.mp (hperm.mem_iff.mpr ht) with rfl | hrest
    · exact threatLe_refl t
    · exact (List.sorted_cons.mp hsorted).1 t hrest
  refine ⟨⟨hmem, hmin⟩, ?_⟩
  have hthreats : Loc.computeThreats u w ≠ [] := by
    intro h
    rw [h] at hsort
    exact List.cons_ne_nil c rest hsort.symm
  have hrainy : ¬ (Loc.rainyStations w).length = 0 := by
    intro h
    apply hthreats
    rw [Loc.computeThreats, List.length_eq_zero.mp h]
    rfl
  rw [Loc.calculateRainPrediction, if_neg (by simp [hsig]), if_neg hrainy, hsort]

/-- The single station of `wOne` passes the rainy-station filter. -/
theorem rainyStations_wOne : Loc.rainyStations wOne = [stNorth] := by
  simp only [Loc.rainyStations, wOne]
  norm_num [List.filter_cons, lookupD, lookupRecord, stNorth, southWind]
  exact Option.some_ne_none _

/-- The threat list of `wOne`: one threat, 15 rounded minutes, 10 km. -/
theorem computeThreats_wOne :
    Loc.computeThreats uZero wOne = [⟨"North", 15, 10⟩] := by
  have hwv : lookupRecord wOne.windVectors stNorth.id = some (southWind 40) := by
    simp [wOne, stNorth, lookupRecord]
  have h := threatOf_north wOne stNorth 10 40 rfl hwv (by norm_num) (by norm_num)
  rw [show (10 : ℝ) / 40 * 60 = 15 by norm_num] at h
  rw [if_pos (by norm_num : (15 : ℝ) ≤ 15)] at h
  have hr : jsRound (15 : ℝ) = 15 := by
    rw [jsRound, Int.floor_eq_iff] <;> norm_num
  rw [hr] at h
  rw [Loc.computeThreats, rainyStations_wOne]
  simp only [List.filterMap_cons, List.filterMap_nil, h]
  rfl

/-- C1 amended witness: on the one-threat snapshot the message names the
minimal threat's station with its rounded arrival time. -/
theorem C1_threat_selection_amended_witness :
    Loc.calculateRainPrediction uZero wOne =
      "Rain from North is moving your way and could arrive in about 15 minutes." := by
  have hsort : List.insertionSort Loc.threatLe (Loc.computeThreats uZero wOne) =
      (⟨"North", 15, 10⟩ : Loc.Threat) :: [] := by
    rw [computeThreats_wOne]
    rfl
  have h := C1_threat_selection_amended uZero wOne ⟨"North", 15, 10⟩ [] rfl hsort
  rw [h.2, if_neg (by decide)]
  rfl

/-- Both stations of `wTwo` pass the rainy-station filter. -/
theorem rainyStations_wTwo : Loc.rainyStations wTwo = [stAlpha, stBeta] := by
  simp only [Loc.rainyStations, wTwo]
  norm_num [List.filter_cons, lookupD, lookupRecord, stAlpha, stBeta, southWind]
  rw [if_neg (Option.some_ne_none _), if_pos ?hb]
  case hb =>
    refine ⟨Option.some_ne_none _, ?_⟩
    rw [if_neg (by decide)]
    show (0 : ℝ) < 500 / 17
    norm_num

/-- The threat list of `wTwo`: arrival times 9.6 and 10.2 minutes, both
rounding to 10, at distances 10 and 5 km. -/
theorem computeThreats_wTwo :
    Loc.computeThreats uZero wTwo = [⟨"Alpha", 10, 10⟩, ⟨"Beta", 10, 5⟩] := by
  have hwvA : lookupRecord wTwo.windVectors stAlpha.id = some (southWind (125 / 2)) := by
    simp [wTwo, stAlpha, lookupRecord]
  have hwvB : lookupRecord wTwo.windVectors stBeta.id = some (southWind (500 / 17)) := by
    simp [wTwo, stBeta, lookupRecord]
  have hA := threatOf_north wTwo stAlpha 10 (125 / 2) rfl hwvA (by norm_num) (by norm_num)
  have hB := threatOf_north wTwo stBeta 5 (500 / 17) rfl hwvB (by norm_num) (by norm_num)
  rw [show (10 : ℝ) / (125 / 2) * 60 = 48 / 5 by norm_num] at hA
  rw [show (5 : ℝ) / (500 / 17) * 60 = 51 / 5 by norm_num] at hB
  rw [if_pos (by norm_num : (48 / 5 : ℝ) ≤ 15)] at hA
  rw [if_pos (by norm_num : (51 / 5 : ℝ) ≤ 15)] at hB
  have hrA : jsRound ((48 : ℝ) / 5) = 10 := by
    rw [jsRound, Int.floor_eq_iff] <;> norm_num
  have hrB : jsRound ((51 : ℝ) / 5) = 10 := by
    rw [jsRound, Int.floor_eq_iff] <;> norm_num
  rw [hrA] at hA
  rw [hrB] at hB
  rw [Loc.computeThreats, rainyStations_wTwo]
  simp only [List.filterMap_cons, List.filterMap_nil, hA, hB]
  rfl

/-- C1 counterexample: in `wTwo` the threat from Alpha has the strictly
smallest unrounded time-to-arrive (9.6 minutes against Beta's 10.2 — no tie),
yet the prediction names Beta, because the code rounds the times to whole
minutes before sorting and then breaks the resulting 10-minute tie by
distance. The claim as stated, selection by smallest time-to-arrive with
ties broken by distance, is false on the code. -/
theorem C1_threat_selection_counterexample :
    Loc.calculateRainPrediction uZero wTwo =
      "Rain from Beta is moving your way and could arrive in about 10 minutes." ∧
    Loc.timeToReach uZero (northLoc 10) (southWind (125 / 2)) = 48 / 5 ∧
    Loc.timeToReach uZero (northLoc 5) (southWind (500 / 17)) = 51 / 5 ∧
    ((48 : ℝ) / 5) < 51 / 5 ∧
    Loc.calculateRainPrediction uZero wTwo ≠
      "Rain from Alpha is moving your way and could arrive in about 10 minutes." := by
  have hsort : List.insertionSort Loc.threatLe (Loc.computeThreats uZero wTwo) =
      (⟨"Beta", 10, 5⟩ : Loc.Threat) :: [⟨"Alpha", 10, 10⟩] := by
    rw [computeThreats_wTwo]
    simp only [List.insertionSort, List.orderedInsert]
    rw [if_neg ?hneg]
    case hneg =>
      rw [Loc.threatLe]
      rintro (h | ⟨h1, h2⟩)
      · exact absurd h (by decide)
      · exact absurd h2 (by norm_num)
  have hpred : Loc.calculateRainPrediction uZero wTwo =
      Loc.approachMessage ⟨"Beta", 10, 5⟩ := by
    rw [Loc.calculateRainPrediction, if_neg (by simp [wTwo]),
      if_neg (by rw [rainyStations_wTwo]; norm_num), hsort]
    exact rfl
  refine ⟨?_, ?_, ?_, by norm_num, ?_⟩
  · rw [hpred]
    rfl
  · rw [timeToReach_north 10 (125 / 2) (by norm_num) (by norm_num)]
    norm_num
  · rw [timeToReach_north 5 (500 / 17) (by norm_num) (by norm_num)]
    norm_num
  · rw [hpred]
    decide

